import Mathlib

/-!
Verification of the bloodwork analysis backend (NestJS service).

This file shallowly embeds the core of the pipeline:
the status classifier (`determineTestStatus` in
`src/analysis/utils/test-parsing.ts` and the mock processor
`determineStatus`), the text extractor (`parseTestResults`), the job
manager (`startAnalysis`, `updateJobStatus` in `analysis.service.ts`),
the background processor (`handleBloodworkAnalysis`), the enrichment
client (`generateAndPersistForAnalysis`, `callWithRetry`,
`getDefaultNote`), and the result aggregation
(`calculateStatistics`, `findByIdWithEnhancements`,
`determineSeverity`).

JavaScript numbers are modelled as rationals (`ℚ`); the one place where
IEEE-754 semantics matters (`NaN` produced by `0 / 0` in
`determineSeverity`) is modelled explicitly with `Option ℚ`, `none`
standing for `NaN`, with comparisons against `NaN` returning `false` as
in JavaScript.  Strings are processed through their underlying
character lists so that every definition evaluates inside the kernel.
-/

namespace Bloodwork

/-- The four status labels of `type TestStatus` in `test-parsing.ts`. -/
inductive TestStatus where
  | normal
  | high
  | low
  | critical
deriving DecidableEq, Repr

/-- Model of `determineTestStatus(value, min, max)` from
`src/analysis/utils/test-parsing.ts` (lines 173-182):
below min it is critical under half of min else low; above max it is
critical above 1.5 times max else high; otherwise normal. -/
def determineTestStatus (value mn mx : ℚ) : TestStatus :=
  if value < mn then
    if value < mn * (1/2) then .critical else .low
  else if value > mx then
    if value > mx * (3/2) then .critical else .high
  else .normal

/-- Model of `determineStatus(value, min, max)` from the mock processor
(`AnalysisProcessor.determineStatus`):
critical when value is under half of min or over TWICE max, else low
under min, else high over max, else normal. -/
def determineStatus (value mn mx : ℚ) : TestStatus :=
  if value < mn * (1/2) ∨ value > mx * 2 then .critical
  else if value < mn then .low
  else if value > mx then .high
  else .normal

/-! ## Job manager (`analysis.service.ts`) -/
/-- Model of `enum JobStatus` from `analysis-job.entity.ts`. -/
inductive JobStatus where
  | queued
  | running
  | completed
  | failed
deriving DecidableEq, Repr

/-- Completed and Failed are the terminal states. -/
def JobStatus.isTerminal : JobStatus → Bool
  | .completed => true
  | .failed => true
  | _ => false

/-- The `AnalysisJob` entity.  `progress`, `resultId` and
`errorMessage` are nullable columns; timestamps are opaque ticks. -/
structure AnalysisJob where
  id : String
  userId : String
  uploadId : String
  status : JobStatus
  progress : Option Nat
  resultId : Option String
  errorMessage : Option String
  createdAt : Nat
  updatedAt : Nat
deriving DecidableEq, Repr

/-- A `Partial<AnalysisJob>` as passed to `updateJobStatus`: each field
is present (`some`) or absent (`none`). -/
structure JobUpdate where
  status : Option JobStatus := none
  progress : Option Nat := none
  resultId : Option String := none
  errorMessage : Option String := none
deriving DecidableEq, Repr

/-- Spreading `{...updates, updatedAt: new Date()}` over a job row:
present fields overwrite, `updatedAt` is always stamped. -/
def applyJobUpdate (u : JobUpdate) (now : Nat) (j : AnalysisJob) : AnalysisJob :=
  { j with
    status := u.status.getD j.status
    progress := match u.progress with | some p => some p | none => j.progress
    resultId := match u.resultId with | some r => some r | none => j.resultId
    errorMessage :=
      match u.errorMessage with | some e => some e | none => j.errorMessage
    updatedAt := now }

/-- The service-level errors raised by `AnalysisService`
(`NotFoundException`, `BadRequestException`). -/
inductive ServiceErr where
  | notFound
  | badRequest
deriving DecidableEq, Repr

/-- The effect of `jobRepository.update(jobId, partial)` on the job
table: every row whose id matches is overwritten. -/
def updMap (jobId : String) (u : JobUpdate) (now : Nat)
    (jobs : List AnalysisJob) : List AnalysisJob :=
  jobs.map fun j => if j.id == jobId then applyJobUpdate u now j else j

/-- Model of `AnalysisService.updateJobStatus(jobId, updates)` (lines 124-133):
`jobRepository.update(jobId, {...updates, updatedAt: new Date()})`,
then `NotFoundException` iff zero rows were affected.  The update is
applied to every row whose id matches, with no check of the current
status. -/
def updateJobStatus (jobId : String) (u : JobUpdate) (now : Nat)
    (jobs : List AnalysisJob) : Except ServiceErr (List AnalysisJob) :=
  if jobs.any (fun j => j.id == jobId) then
    .ok (updMap jobId u now jobs)
  else
    .error .notFound

/-- The `Upload` row as returned by
`UploadsService.findByIdWithFileCheck` (an external collaborator of the
analysis service). -/
structure Upload where
  id : String
  path : String
  originalName : String
deriving DecidableEq, Repr

/-- The Bull queue payload added by `startAnalysis`. -/
structure QueueItem where
  jobId : String
  userId : String
  uploadId : String
  filePath : String
  originalName : String
deriving DecidableEq, Repr

/-- Model of `AnalysisService.startAnalysis(uploadId, userId)` (lines 53-89).
`upload?` is the outcome of the external
`uploadsService.findByIdWithFileCheck` call (`none` models its
`NotFoundException`).  The duplicate check is
`findOne({where: {uploadId, userId, status: JobStatus.QUEUED}})`: only
a QUEUED job for the pair raises `BadRequestException`.  On success a
new queued job with progress 0 is saved and one queue item is
enqueued. -/
def startAnalysis (upload? : Option Upload) (uploadId userId newId : String)
    (now : Nat) (jobs : List AnalysisJob) :
    Except ServiceErr (AnalysisJob × List AnalysisJob × QueueItem) :=
  match upload? with
  | none => .error .notFound
  | some upload =>
    if jobs.any (fun j =>
        j.uploadId == uploadId && j.userId == userId && j.status == JobStatus.queued) then
      .error .badRequest
    else
      let job : AnalysisJob :=
        { id := newId, userId := userId, uploadId := uploadId,
          status := .queued, progress := some 0, resultId := none,
          errorMessage := none, createdAt := now, updatedAt := now }
      .ok (job, jobs ++ [job],
        { jobId := newId, userId := userId, uploadId := uploadId,
          filePath := upload.path, originalName := upload.originalName })

/-- A job that has already reached the terminal state Completed. -/
def jobDoneC1 : AnalysisJob :=
  { id := "j1", userId := "u1", uploadId := "d1", status := .completed,
    progress := some 100, resultId := some ("r1"), errorMessage := none,
    createdAt := 0, updatedAt := 0 }

/-- A later non-terminal write against the completed job. -/
def updateBackToRunningC1 : JobUpdate :=
  { status := some .running, progress := some 50 }

/-- What the completed job becomes after the late write. -/
def jobOverwrittenC1 : AnalysisJob :=
  { jobDoneC1 with status := .running, progress := some 50, updatedAt := 7 }

/-- A job for `(d1, u1)` that is currently Running (non-terminal). -/
def jobRunningC2 : AnalysisJob :=
  { id := "j1", userId := "u1", uploadId := "d1", status := .running,
    progress := some 30, resultId := none, errorMessage := none,
    createdAt := 0, updatedAt := 0 }

/-- The resolved upload record for the duplicate-creation scenario. -/
def uploadC2 : Upload := { id := "d1", path := "/tmp/d1.pdf", originalName := "d1.pdf" }

/-- The second job that `startAnalysis` creates despite the running one. -/
def jobCreatedC2 : AnalysisJob :=
  { id := "j2", userId := "u1", uploadId := "d1", status := .queued,
    progress := some 0, resultId := none, errorMessage := none,
    createdAt := 5, updatedAt := 5 }

/-- The queue payload enqueued for the second job. -/
def queueItemC2 : QueueItem :=
  { jobId := "j2", userId := "u1", uploadId := "d1",
    filePath := "/tmp/d1.pdf", originalName := "d1.pdf" }

/-! ## Results and aggregation (`results.service.ts`) -/
/-- The reference range of a test row. -/
structure RefRange where
  min : ℚ
  max : ℚ
deriving DecidableEq, Repr

/-- Model of `interface TestResult` from `bloodwork-result.entity.ts`, together
with the `aiNote`/`aiConfidence`/`aiModel`/`aiVersion`/`aiTimestamp`
fields that `AiRecommendationsService.generateAndPersistForAnalysis`
spreads onto each row of the JSON column. -/
structure TestResult where
  id : String
  testName : String
  value : ℚ
  unit : String
  referenceRange : RefRange
  status : TestStatus
  aiNote : Option String := none
  aiConfidence : Option ℚ := none
  aiModel : Option String := none
  aiVersion : Option String := none
  aiTimestamp : Option String := none
deriving DecidableEq, Repr

/-- The `BloodworkResult` entity (JSON `results` column included). -/
structure BloodworkResult where
  id : String
  userId : String
  jobId : String
  testType : String
  testDate : String
  results : List TestResult
  doctorNotes : Option String
  status : String
  createdAt : Nat
deriving DecidableEq, Repr

/-- The overall status of a result
(normal, abnormal or critical). -/
inductive OverallStatus where
  | normal
  | abnormal
  | critical
deriving DecidableEq, Repr

/-- Model of `interface ResultStatistics` from `results.service.ts`. -/
structure ResultStatistics where
  totalTests : Nat
  normalCount : Nat
  abnormalCount : Nat
  criticalCount : Nat
  testDate : String
  testType : String
  overallStatus : OverallStatus
deriving DecidableEq, Repr

/-- Model of `ResultsService.calculateStatistics` (lines 326-356): counts by
status, `abnormalCount = highCount + lowCount`, and worst-finding
overall status. -/
def calculateStatistics (result : BloodworkResult) : ResultStatistics :=
  let results := result.results
  let totalTests := results.length
  let normalCount := (results.filter fun t => t.status == TestStatus.normal).length
  let highCount := (results.filter fun t => t.status == TestStatus.high).length
  let lowCount := (results.filter fun t => t.status == TestStatus.low).length
  let criticalCount := (results.filter fun t => t.status == TestStatus.critical).length
  let abnormalCount := highCount + lowCount
  let overallStatus : OverallStatus :=
    if criticalCount > 0 then .critical
    else if abnormalCount > 0 then .abnormal
    else .normal
  { totalTests := totalTests, normalCount := normalCount,
    abnormalCount := abnormalCount, criticalCount := criticalCount,
    testDate := result.testDate, testType := result.testType,
    overallStatus := overallStatus }

/-! ## Mock AI recommendations (`ai-recommendations.service.ts`) -/
/-- Character lists standing for JavaScript strings. -/
abbrev Chars := List Char

/-- Does `s` start with `pat`? -/
def charsStartsWith : Chars → Chars → Bool
  | _, [] => true
  | [], _ :: _ => false
  | c :: cs, d :: ds => c == d && charsStartsWith cs ds

/-- JavaScript `String.prototype.includes`: `pat` occurs somewhere in
`s`. -/
def charsContains : Chars → Chars → Bool
  | s, pat =>
    match s with
    | [] => charsStartsWith [] pat
    | _ :: cs => charsStartsWith s pat || charsContains cs pat

/-- ASCII lower-casing, the fragment of `toLowerCase()` exercised by
the test names handled here. -/
def lowerChar (c : Char) : Char :=
  if 'A' ≤ c ∧ c ≤ 'Z' then Char.ofNat (c.toNat + 32) else c

/-- Model of `s.toLowerCase()` (ASCII). -/
def toLowerStr (s : String) : String := ⟨s.data.map lowerChar⟩

/-- Model of `s.includes(sub)`. -/
def strIncludes (s sub : String) : Bool := charsContains s.data sub.data

/-- Decimal digits of `n`, most significant first (`fuel` bounds the
recursion; `fuel ≥ n` is always enough). -/
def natToDigitsAux : Nat → Nat → Chars
  | 0, _ => []
  | fuel + 1, n =>
    if n = 0 then [] else natToDigitsAux fuel (n / 10) ++ [Char.ofNat (48 + n % 10)]

/-- Decimal rendering of a natural number (string interpolation of
counts in message templates). -/
def natToDecString (n : Nat) : String :=
  if n = 0 then ("0") else ⟨natToDigitsAux (n + 1) n⟩

/-- Rendering of a rational for interpolated message text.  JavaScript
float formatting is abstracted: integers render exactly, other values
as `num/den`.  Only note text depends on this. -/
def ratRepr (q : ℚ) : String :=
  if q.den = 1 then
    (if q.num < 0 then ("-") ++ natToDecString q.num.natAbs
     else natToDecString q.num.natAbs)
  else
    natToDecString q.num.natAbs ++ "/" ++ natToDecString q.den

/-- JavaScript division producing `NaN` on `0 / 0` (`none` stands for
`NaN`; the dividend is never nonzero when the divisor is zero here, so
infinities do not arise). -/
def jsDiv (a b : ℚ) : Option ℚ := if b = 0 then none else some (a / b)

/-- Multiplication propagating `NaN`. -/
def jsMul (x? : Option ℚ) (y : ℚ) : Option ℚ := x?.map (· * y)

/-- JavaScript `>` on a possibly-`NaN` left operand: any comparison
with `NaN` is false. -/
def jsGt (x? : Option ℚ) (y : ℚ) : Bool :=
  match x? with
  | none => false
  | some x => decide (y < x)

/-- Model of the severity union type (low, medium, high, critical) of
`AiRecommendationResponse`. -/
inductive Severity where
  | low
  | medium
  | high
  | critical
deriving DecidableEq, Repr

/-- Model of `AiRecommendationsService.determineSeverity` (lines 344-354):
critical when any row is critical, else thresholds on the abnormal
percentage `(abnormalCount / totalCount) * 100`, which is `NaN` for an
empty row list. -/
def determineSeverity (testResults : List TestResult) : Severity :=
  if testResults.any (fun t => t.status == TestStatus.critical) then .critical
  else
    let abnormalCount :=
      (testResults.filter fun t => !(t.status == TestStatus.normal)).length
    let totalCount := testResults.length
    let abnormalPercentage :=
      jsMul (jsDiv (abnormalCount : ℚ) (totalCount : ℚ)) 100
    if jsGt abnormalPercentage 50 then .high
    else if jsGt abnormalPercentage 25 then .medium
    else .low

/-- Model of `determineFollowUpTiming(severity, testResults)`: the switch on the
severity label (default branch is the routine follow-up). -/
def determineFollowUpTiming (severity : Severity)
    (_testResults : List TestResult) : String :=
  match severity with
  | .critical => "Immediate medical attention required"
  | .high => "Follow-up within 1-2 weeks"
  | .medium => "Follow-up within 1 month"
  | .low => "Routine follow-up in 3-6 months"

/-- The record returned by `analyzeBloodworkContext`. -/
structure BloodworkContext where
  criticalFindings : List TestResult
  abnormalFindings : List TestResult
  systemsAffected : List String
  riskFactors : List String
  positiveFindings : List TestResult
deriving Repr

/-- Model of `identifyAffectedSystems(testResults)`: a system is pushed when one
of its marker tests is present with a non-normal status. -/
def identifyAffectedSystems (testResults : List TestResult) : List String :=
  let liverTests := testResults.filter fun t =>
    strIncludes (toLowerStr t.testName) "alt" ||
    strIncludes (toLowerStr t.testName) "ast" ||
    strIncludes (toLowerStr t.testName) "bilirubin"
  let kidneyTests := testResults.filter fun t =>
    strIncludes (toLowerStr t.testName) "creatinine" ||
    strIncludes (toLowerStr t.testName) "bun" ||
    strIncludes (toLowerStr t.testName) "egfr"
  let cardioTests := testResults.filter fun t =>
    strIncludes (toLowerStr t.testName) "cholesterol" ||
    strIncludes (toLowerStr t.testName) "triglyceride" ||
    strIncludes (toLowerStr t.testName) "hdl" ||
    strIncludes (toLowerStr t.testName) "ldl"
  let metabolicTests := testResults.filter fun t =>
    strIncludes (toLowerStr t.testName) "glucose" ||
    strIncludes (toLowerStr t.testName) "hba1c" ||
    strIncludes (toLowerStr t.testName) "insulin"
  (if liverTests.any (fun t => !(t.status == TestStatus.normal))
    then ["liver"] else []) ++
  (if kidneyTests.any (fun t => !(t.status == TestStatus.normal))
    then ["kidney"] else []) ++
  (if cardioTests.any (fun t => !(t.status == TestStatus.normal))
    then ["cardiovascular"] else []) ++
  (if metabolicTests.any (fun t => !(t.status == TestStatus.normal))
    then ["metabolic"] else [])

/-- Model of `identifyRiskFactors(abnormalTests)`. -/
def identifyRiskFactors (abnormalTests : List TestResult) : List String :=
  (if abnormalTests.any (fun t => strIncludes (toLowerStr t.testName) "cholesterol")
    then ["cardiovascular disease"] else []) ++
  (if abnormalTests.any (fun t => strIncludes (toLowerStr t.testName) "glucose")
    then ["diabetes mellitus"] else []) ++
  (if abnormalTests.any (fun t => strIncludes (toLowerStr t.testName) "alt")
    then ["liver dysfunction"] else [])

/-- Model of `getSystemSpecificAdvice(system, abnormalTests)`: the record lookup
`systemAdvice[system] || null`. -/
def getSystemSpecificAdvice (system : String)
    (_abnormalTests : List TestResult) : Option String :=
  if system = "liver" then
    some ("🫀 Liver function markers elevated - consider reducing alcohol intake, avoiding hepatotoxic medications, and discussing liver health with your doctor.")
  else if system = "kidney" then
    some ("🔄 Kidney function indicators abnormal - ensure adequate hydration, monitor blood pressure, and consider nephrology consultation.")
  else if system = "cardiovascular" then
    some ("❤️ Cardiovascular risk factors detected - focus on heart-healthy diet, regular exercise, and lipid management strategies.")
  else if system = "metabolic" then
    some ("⚡ Metabolic markers suggest monitoring blood sugar - consider dietary modifications, regular glucose monitoring, and endocrinology evaluation.")
  else none

/-- Model of `getRiskMitigationAdvice(risk)`. -/
def getRiskMitigationAdvice (risk : String) : Option String :=
  if risk = "cardiovascular disease" then
    some ("🏃‍♂️ Focus on heart-healthy lifestyle: regular exercise, Mediterranean diet, stress management.")
  else if risk = "diabetes mellitus" then
    some ("🥗 Prioritize blood sugar management: low-glycemic diet, regular monitoring, weight management.")
  else if risk = "liver dysfunction" then
    some ("🚫 Support liver health: avoid alcohol, limit processed foods, maintain healthy weight.")
  else none

/-- Model of `getCriticalTestAdvice(test)`: declared `string | null` but every
branch returns a (non-empty) string, so the truthiness guard at the caller
always passes. -/
def getCriticalTestAdvice (test : TestResult) : String :=
  if strIncludes (toLowerStr test.testName) "glucose" &&
      test.status == TestStatus.critical then
    "🩸 Critical glucose levels detected - seek immediate medical attention for blood sugar management."
  else if strIncludes (toLowerStr test.testName) "creatinine" &&
      test.status == TestStatus.critical then
    "🚰 Critical kidney function markers - urgent nephrology consultation recommended."
  else
    "⚠️ Critical " ++ test.testName ++ " level (" ++ ratRepr test.value ++
      " " ++ test.unit ++ ") requires immediate medical evaluation."

/-- Model of `getGeneralWellnessAdvice(analysis)`. -/
def getGeneralWellnessAdvice (ctx : BloodworkContext) : List String :=
  ["💊 Continue taking prescribed medications as directed by your healthcare provider.",
   "📋 Keep a copy of these results for your medical records and future reference."] ++
  (if ctx.abnormalFindings.length > 0 then
    ["🔄 Consider retesting in 3-6 months to monitor changes and treatment effectiveness."]
   else
    ["📅 Schedule routine follow-up testing in 12 months for continued health monitoring."])

/-- Model of `analyzeBloodworkContext(testResults)`. -/
def analyzeBloodworkContext (testResults : List TestResult) : BloodworkContext :=
  let abnormalFindings := testResults.filter fun t =>
    t.status == TestStatus.high || t.status == TestStatus.low
  { criticalFindings :=
      testResults.filter fun t => t.status == TestStatus.critical
    abnormalFindings := abnormalFindings
    systemsAffected := identifyAffectedSystems testResults
    riskFactors := identifyRiskFactors abnormalFindings
    positiveFindings :=
      testResults.filter fun t => t.status == TestStatus.normal }

/-- Model of `generateContextualRecommendations(analysis, testResults)`: the
pushes, in source order. -/
def generateContextualRecommendations (ctx : BloodworkContext)
    (_testResults : List TestResult) : List String :=
  (if ctx.criticalFindings.length > 0 then
    ("🚨 URGENT: " ++ natToDecString ctx.criticalFindings.length ++
      " critical result" ++
      (if ctx.criticalFindings.length > 1 then ("s") else ("")) ++
      " require immediate medical evaluation. Contact your healthcare provider today.")
      :: ctx.criticalFindings.map getCriticalTestAdvice
   else []) ++
  ctx.systemsAffected.filterMap
    (fun s => getSystemSpecificAdvice s ctx.abnormalFindings) ++
  ctx.riskFactors.filterMap getRiskMitigationAdvice ++
  (if ctx.positiveFindings.length > 0 && ctx.criticalFindings.length == 0 then
    ["✅ " ++ natToDecString ctx.positiveFindings.length ++ " test" ++
      (if ctx.positiveFindings.length > 1 then ("s") else ("")) ++
      " within normal range - continue current health practices."]
   else []) ++
  getGeneralWellnessAdvice ctx

/-- Model of `generateKeyFindings(analysis, testResults)`. -/
def generateKeyFindings (ctx : BloodworkContext) : List String :=
  (if ctx.criticalFindings.length > 0 then
    [natToDecString ctx.criticalFindings.length ++
      " critical result(s) requiring urgent attention"] else []) ++
  (if ctx.abnormalFindings.length > 0 then
    [natToDecString ctx.abnormalFindings.length ++
      " result(s) outside normal range"] else []) ++
  (if ctx.systemsAffected.length > 0 then
    ["Potential concerns with: " ++
      String.intercalate (", ") ctx.systemsAffected ++ " function"] else []) ++
  (if ctx.positiveFindings.length > 0 then
    [natToDecString ctx.positiveFindings.length ++
      " result(s) within healthy range"] else [])

/-- Model of `getMedicalDisclaimer()`. -/
def getMedicalDisclaimer : String :=
  "This analysis is for informational purposes only and does not constitute medical advice. Always consult with qualified healthcare professionals for medical decisions and treatment plans."

/-- Model of `interface AiRecommendationResponse`. -/
structure AiRecommendationResponse where
  recommendations : List String
  severity : Severity
  followUpTimeframe : String
  medicalDisclaimer : String
  keyFindings : List String
deriving Repr

/-- Model of `generateRecommendations` → `generateMockAiRecommendations`. -/
def generateRecommendations (testResults : List TestResult) :
    AiRecommendationResponse :=
  let ctx := analyzeBloodworkContext testResults
  let severity := determineSeverity testResults
  { recommendations := generateContextualRecommendations ctx testResults
    severity := severity
    followUpTimeframe := determineFollowUpTiming severity testResults
    medicalDisclaimer := getMedicalDisclaimer
    keyFindings := generateKeyFindings ctx }

/-- The `aiInsights` block of `EnhancedBloodworkResult`. -/
structure AiInsights where
  severity : Severity
  followUpTimeframe : String
  keyFindings : List String
  medicalDisclaimer : String
deriving Repr

/-- Model of `interface EnhancedBloodworkResult`: the entity spread plus the
computed fields. -/
structure EnhancedBloodworkResult where
  result : BloodworkResult
  statistics : ResultStatistics
  criticalTests : List TestResult
  abnormalTests : List TestResult
  recommendations : List String
  aiInsights : AiInsights
deriving Repr

/-- Model of `ResultsService.findByIdWithEnhancements(id, userId)`
(lines 244-286): `findOne({where: {id, userId}})`, NotFound when
absent, else statistics, highlight subsets and the mock AI block. -/
def findByIdWithEnhancements (id userId : String)
    (store : List BloodworkResult) : Except ServiceErr EnhancedBloodworkResult :=
  match store.find? (fun b => b.id == id && b.userId == userId) with
  | none => .error .notFound
  | some result =>
    let statistics := calculateStatistics result
    let criticalTests :=
      result.results.filter fun t => t.status == TestStatus.critical
    let abnormalTests := result.results.filter fun t =>
      t.status == TestStatus.high || t.status == TestStatus.low
    let ai := generateRecommendations result.results
    .ok { result := result, statistics := statistics,
          criticalTests := criticalTests, abnormalTests := abnormalTests,
          recommendations := ai.recommendations,
          aiInsights := { severity := ai.severity,
                          followUpTimeframe := ai.followUpTimeframe,
                          keyFindings := ai.keyFindings,
                          medicalDisclaimer := ai.medicalDisclaimer } }

/-- A stored result whose rows list is empty (the zero-extracted-rows
case persisted by the pipeline). -/
def emptyStoredResult : BloodworkResult :=
  { id := "r1", userId := "u1", jobId := "j1",
    testType := "Complete Blood Count", testDate := "2024-01-01",
    results := [], doctorNotes := none, status := "completed",
    createdAt := 0 }

/-! ## Enrichment client (`ai-recommendations.service.ts` of the
`results` module: `generateAndPersistForAnalysis`, `callWithRetry`,
`getDefaultNote`) -/
/-- Model of `getDefaultNote(testName, status, value?, unit?)`: the
deterministic fallback note table keyed by test-name keyword and
status. -/
def getDefaultNote (testName : String) (status : TestStatus)
    (_value : Option ℚ := none) (_unit : Option String := none) : String :=
  let normalized := toLowerStr testName
  if strIncludes normalized ("cholesterol") then
    if strIncludes normalized ("hdl") then
      if status == TestStatus.high then
        "Excellent HDL cholesterol! This \"good\" cholesterol helps protect your heart."
      else if status == TestStatus.low then
        "HDL cholesterol could be higher - consider exercise and healthy fats."
      else ("Good HDL cholesterol levels support cardiovascular health.")
    else if strIncludes normalized ("ldl") then
      if status == TestStatus.high then
        "LDL cholesterol is elevated - consider dietary changes and exercise."
      else ("LDL cholesterol levels look good for heart health.")
    else if status == TestStatus.high then
      "Total cholesterol is elevated - focus on heart-healthy lifestyle choices."
    else ("Cholesterol levels support good cardiovascular health.")
  else if strIncludes normalized ("glucose") || strIncludes normalized ("sugar") then
    if status == TestStatus.high then
      "Blood sugar is elevated - monitor carbs and stay active."
    else if status == TestStatus.low then
      "Blood sugar is low - ensure regular, balanced meals."
    else ("Blood sugar levels are well-controlled.")
  else if strIncludes normalized ("vitamin d") then
    if status == TestStatus.low then
      "Vitamin D is low - consider supplements and safe sun exposure."
    else ("Vitamin D levels support bone and immune health.")
  else if strIncludes normalized ("hemoglobin") || strIncludes normalized ("hgb") then
    if status == TestStatus.low then
      "Hemoglobin is low - ensure iron-rich foods and consult your doctor."
    else if status == TestStatus.high then
      "Hemoglobin is elevated - stay hydrated and follow up if needed."
    else ("Hemoglobin levels support healthy oxygen transport.")
  else
    match status with
    | .high => "This value is elevated - discuss with your healthcare provider."
    | .low => "This value is below normal - consider follow-up with your doctor."
    | .critical => "This result needs immediate attention - contact your healthcare provider."
    | .normal => "This test result is within normal range."

/-- Model of `interface TestResultInput` from `ai.types.ts`. -/
structure TestResultInput where
  id : String
  testName : String
  value : ℚ
  unit : String
  referenceRange : RefRange
  status : TestStatus
deriving DecidableEq, Repr

/-- Projection of a stored row to the model input
(`row.results.map((r) => ({id, testName, ...}))`). -/
def toInput (r : TestResult) : TestResultInput :=
  { id := r.id, testName := r.testName, value := r.value, unit := r.unit,
    referenceRange := r.referenceRange, status := r.status }

/-- A response element after `InsightOutArraySchema` validation
(`{id, aiNote, confidence}`). -/
structure InsightRaw where
  id : String
  aiNote : String
  confidence : ℚ
deriving DecidableEq, Repr

/-- Model of `interface InsightOut`: a validated element with the
`sourceModel` tag attached by `callOnce`. -/
structure InsightOut where
  id : String
  aiNote : String
  confidence : ℚ
  sourceModel : String
deriving DecidableEq, Repr

/-- The tail of `callOnce`: a successfully validated response gets
`sourceModel := "openai:" ++ model` stamped on every element; a
transport or validation failure (`none`) is a thrown exception. -/
def callOnceModel (model : String) (raw? : Option (List InsightRaw)) :
    Option (List InsightOut) :=
  raw?.map (List.map fun v =>
    { id := v.id, aiNote := v.aiNote, confidence := v.confidence,
      sourceModel := "openai:" ++ model })

/-- The randomized retry delay `300 + Math.floor(Math.random() * 900)`
in milliseconds, as a function of the random draw `r ∈ [0, 1)`. -/
def retryDelayMs (r : ℚ) : ℤ := 300 + Int.floor (r * 900)

/-- Model of `callWithRetry(batch)` (lines 84-99): one call, and on failure
exactly one retry; the second component counts the service calls
made.  `attempt a` is the outcome of the `a`-th call for this batch. -/
def callWithRetry (attempt : Nat → Option (List InsightOut)) :
    Option (List InsightOut) × Nat :=
  match attempt 0 with
  | some out => (some out, 1)
  | none =>
    match attempt 1 with
    | some out => (some out, 2)
    | none => (none, 2)

/-- The chunking loop `for (i = 0; i < n; i += CHUNK)
batches.push(inputs.slice(i, i + CHUNK))`, written with explicit fuel
so that it evaluates structurally (`fuel ≥ l.length` always holds at
the call site). -/
def chunkAux (n : Nat) : Nat → List α → List (List α)
  | _, [] => []
  | 0, l => [l]
  | fuel + 1, l => l.take n :: chunkAux n fuel (l.drop n)

/-- Partition into batches of at most `n` (ceiling division). -/
def chunked (n : Nat) (l : List α) : List (List α) := chunkAux n l.length l

/-- Model of `new Map(outputs.map(o => [o.id, o]))` then `byId.get(id)`:
the last output with the given id wins. -/
def lookupLastById (outputs : List InsightOut) (i : String) : Option InsightOut :=
  outputs.foldl (fun acc o => if o.id == i then some o else acc) none

/-- Step 4 of `generateAndPersistForAnalysis`: merge outputs into each
`TestResult`, synthesizing the per-row fallback when the id is
missing.  Each ai field is `aiResult?.field ?? fallback`. -/
def mergeAiResults (version now : String) (outputs : List InsightOut)
    (results : List TestResult) : List TestResult :=
  results.map fun r =>
    match lookupLastById outputs r.id with
    | some o =>
      { r with aiNote := some o.aiNote, aiConfidence := some o.confidence,
               aiModel := some o.sourceModel, aiVersion := some version,
               aiTimestamp := some now }
    | none =>
      { r with
        aiNote := some (getDefaultNote r.testName r.status (some r.value) (some r.unit))
        aiConfidence := some (1/5 : ℚ)
        aiModel := some ("fallback:rules")
        aiVersion := some version
        aiTimestamp := some now }

/-- The server-side persistent state the enrichment service can see:
the job table and the bloodwork-result table.  The service only ever
touches the latter. -/
structure ServerState where
  jobs : List AnalysisJob
  bloodworkResults : List BloodworkResult
deriving Repr

/-- The concatenated batch outputs of step 3 (`outputs.push(...out)`
over the batches, a failed batch contributing nothing). -/
def outputsOf (model : String) (attempt : Nat → Nat → Option (List InsightRaw))
    (row : BloodworkResult) : List InsightOut :=
  (List.range (chunked 20 (row.results.map toInput)).length).flatMap fun i =>
    ((callWithRetry fun a => callOnceModel model (attempt i a)).1.getD [])

/-- Model of `AiRecommendationsService.generateAndPersistForAnalysis(analysisId)`
(lines 24-82): load the row by job id (early return when absent or
empty), chunk the inputs at 20, call each batch with one retry
(`outputsOf`), merge with per-row fallback, persist the updated JSON
column.  `attempt i a` is the outcome of call number `a` for batch `i`
(`none` = transport or validation failure). -/
def generateAndPersistForAnalysis (model : String)
    (attempt : Nat → Nat → Option (List InsightRaw)) (now : String)
    (analysisId : String) (st : ServerState) : ServerState :=
  match st.bloodworkResults.find? (fun b => b.jobId == analysisId) with
  | none => st
  | some row =>
    if row.results.length == 0 then st
    else
      let version := "openai:" ++ model ++ ":p1"
      let updatedResults :=
        mergeAiResults version now (outputsOf model attempt row) row.results
      { st with bloodworkResults := st.bloodworkResults.map fun b =>
          if b.id == row.id then { b with results := updatedResults } else b }

/-- The per-row fallback record synthesized when the service produced
no validated note for the row. -/
def fallbackRow (model now : String) (r : TestResult) : TestResult :=
  { r with
    aiNote := some (getDefaultNote r.testName r.status (some r.value) (some r.unit))
    aiConfidence := some (1/5 : ℚ)
    aiModel := some ("fallback:rules")
    aiVersion := some ("openai:" ++ model ++ ":p1")
    aiTimestamp := some now }

/-- A normal IgG row as stored by the pipeline. -/
def iggRow : TestResult :=
  { id := "1", testName := "IgG", value := 1493, unit := "mg/dL",
    referenceRange := { min := 540, max := 1822 },
    status := TestStatus.normal }

/-- A stored result with one row, owned by job `job2`. -/
def storedRowC4 : BloodworkResult :=
  { id := "r2", userId := "u1", jobId := "job2", testType := "Immunology Panel",
    testDate := "2024-01-01", results := [iggRow], doctorNotes := none,
    status := "completed", createdAt := 0 }

/-! ## Background processor (`analysis.processor.ts`) -/
/-- Model of `interface BloodworkJobData` from `types/index.ts`. -/
structure BloodworkJobData where
  jobId : String
  userId : String
  uploadId : String
  filePath : String
  originalName : String
deriving DecidableEq, Repr

/-- The output of `pdfParserService.parseBloodworkResults`. -/
structure ParsedBloodwork where
  testType : String
  testDate : String
  testResults : List TestResult
deriving DecidableEq, Repr

/-- The progress checkpoints `{status: RUNNING, progress: p}`. -/
def runningUpdate (p : Nat) : JobUpdate :=
  { status := some .running, progress := some p }

/-- The completion write
`{status: COMPLETED, progress: 100, resultId: result.id}`. -/
def completedUpdate (rid : String) : JobUpdate :=
  { status := some .completed, progress := some 100, resultId := some rid }

/-- Model of `ResultsService.createResult(resultData)` (lines 218-233): rejects
a missing (falsy, i.e. empty) `jobId`; the `results` argument is
always an array here, so its `Array.isArray` check passes; otherwise
the entity is saved. -/
def createResult (jobId userId testType testDate : String)
    (results : List TestResult) (doctorNotes : Option String)
    (status : String) (newId : String) (now : Nat) (st : ServerState) :
    Except String (BloodworkResult × ServerState) :=
  if jobId == "" then .error ("Job ID is required for result creation")
  else
    let result : BloodworkResult :=
      { id := newId, userId := userId, jobId := jobId, testType := testType,
        testDate := testDate, results := results, doctorNotes := doctorNotes,
        status := status, createdAt := now }
    .ok (result, { st with bloodworkResults := st.bloodworkResults ++ [result] })

/-- The `catch` block of `handleBloodworkAnalysis`: write
`{status: FAILED, errorMessage}` (its own NotFound would propagate; the
table is left as it was in that case) and re-throw. -/
def failJob (jobId msg : String) (now : Nat) (st : ServerState) : ServerState :=
  match updateJobStatus jobId { status := some .failed, errorMessage := some msg }
      now st.jobs with
  | .ok jobs' => { st with jobs := jobs' }
  | .error _ => st

/-- Model of `AnalysisProcessor.handleBloodworkAnalysis(job)` (lines 31-85): the
five phases — progress 10, progress 30, parse, progress 70, progress
90, persist the result, then the completion write; any thrown error is
caught, the job is marked Failed with the error detail, and the error
re-thrown (second component).  `parseOutcome` is the external PDF
outcome of the parser. -/
def handleBloodworkAnalysis (jd : BloodworkJobData)
    (parseOutcome : Except String ParsedBloodwork) (newResultId : String)
    (now : Nat) (st : ServerState) : ServerState × Option String :=
  let notFoundMsg := "Analysis job " ++ jd.jobId ++ " not found for update"
  match updateJobStatus jd.jobId (runningUpdate 10) now st.jobs with
  | .error _ => (failJob jd.jobId notFoundMsg now st, some notFoundMsg)
  | .ok jobs1 =>
  let st1 := { st with jobs := jobs1 }
  match updateJobStatus jd.jobId (runningUpdate 30) now st1.jobs with
  | .error _ => (failJob jd.jobId notFoundMsg now st1, some notFoundMsg)
  | .ok jobs2 =>
  let st2 := { st1 with jobs := jobs2 }
  match parseOutcome with
  | .error e => (failJob jd.jobId e now st2, some e)
  | .ok parsedData =>
  match updateJobStatus jd.jobId (runningUpdate 70) now st2.jobs with
  | .error _ => (failJob jd.jobId notFoundMsg now st2, some notFoundMsg)
  | .ok jobs3 =>
  let st3 := { st2 with jobs := jobs3 }
  match updateJobStatus jd.jobId (runningUpdate 90) now st3.jobs with
  | .error _ => (failJob jd.jobId notFoundMsg now st3, some notFoundMsg)
  | .ok jobs4 =>
  let st4 := { st3 with jobs := jobs4 }
  match createResult jd.jobId jd.userId parsedData.testType parsedData.testDate
      parsedData.testResults
      (some ("Analysis complete for " ++ parsedData.testType ++
        ". Please discuss these results with your healthcare provider."))
      "completed" newResultId now st4 with
  | .error e => (failJob jd.jobId e now st4, some e)
  | .ok (result, st5) =>
  match updateJobStatus jd.jobId (completedUpdate result.id) now st5.jobs with
  | .error _ => (failJob jd.jobId notFoundMsg now st5, some notFoundMsg)
  | .ok jobs6 => ({ st5 with jobs := jobs6 }, none)

/-! ## Field extractor (`parseTestResults` in
`analysis/utils/test-parsing.ts`) — the regular expressions are
embedded as character-list parsers with the same anchoring, greediness
and case-sensitivity. -/
/-- JavaScript `\s` / `trim()` whitespace (the characters that occur in
lab report text). -/
def isWs (c : Char) : Bool :=
  c == ' ' || c == '\t' || c == '\n' || c == '\r'

/-- Model of `[0-9]`. -/
def isDigitCh (c : Char) : Bool := '0' ≤ c && c ≤ '9'

/-- Model of `line.trim()`. -/
def trimChars (s : Chars) : Chars :=
  ((s.dropWhile isWs).reverse.dropWhile isWs).reverse

/-- Model of the split of the text on newline characters. -/
def splitOnNl : Chars → List Chars
  | [] => [[]]
  | c :: cs =>
    if c == '\n' then [] :: splitOnNl cs
    else
      match splitOnNl cs with
      | [] => [[c]]
      | l :: ls => (c :: l) :: ls

/-- Model of the split-trim-filter pipeline producing the non-empty trimmed lines. -/
def linesOf (text : Chars) : List Chars :=
  ((splitOnNl text).map trimChars).filter fun l => l.length > 0

/-- Model of `\d+` (greedy, at least one digit). -/
def takeDigits1 (s : Chars) : Option (Chars × Chars) :=
  let ds := s.takeWhile isDigitCh
  if ds.isEmpty then none else some (ds, s.dropWhile isDigitCh)

/-- Decimal value of a digit run. -/
def natOfDigits (ds : Chars) : Nat :=
  ds.foldl (fun n c => n * 10 + (c.toNat - 48)) 0

/-- Model of `parseFloat` of a captured `\d+(\.\d+)?` token. -/
def ratOfNumChars (ip fp : Chars) : ℚ :=
  if fp.isEmpty then (natOfDigits ip : ℚ)
  else (natOfDigits ip : ℚ) + (natOfDigits fp : ℚ) / (10 : ℚ) ^ fp.length

/-- Model of `\d+(?:\.\d+)?` (greedy; the optional fraction is taken exactly
when a dot followed by a digit is present, as the regex engine
would). -/
def takeNumber (s : Chars) : Option (ℚ × Chars) :=
  match takeDigits1 s with
  | none => none
  | some (ip, rest) =>
    match rest with
    | '.' :: rest2 =>
      (match takeDigits1 rest2 with
      | some (fp, rest3) => some (ratOfNumChars ip fp, rest3)
      | none => some (ratOfNumChars ip [], rest))
    | _ => some (ratOfNumChars ip [], rest)

/-- Model of `\s*`. -/
def skipWsStar (s : Chars) : Chars := s.dropWhile isWs

/-- Model of `\s+`. -/
def skipWs1 (s : Chars) : Option Chars :=
  match s with
  | c :: cs => if isWs c then some (cs.dropWhile isWs) else none
  | [] => none

/-- Literal token. -/
def expectLit (lit : String) (s : Chars) : Option Chars :=
  if charsStartsWith s lit.data then some (s.drop lit.length) else none

/-- Model of `/^(\d+(?:\.\d+)?)$/` — the bare numeric value line. -/
def valueLineNum (s : Chars) : Option ℚ :=
  match takeNumber s with
  | some (q, rest) => if rest.isEmpty then some q else none
  | none => none

/-- Model of `/^IgG$/i`. -/
def nameIsIgG (s : Chars) : Bool := s.map lowerChar == "igg".data

/-- Model of `/^Testosterone$/i`. -/
def nameIsTestosterone (s : Chars) : Bool :=
  s.map lowerChar == "testosterone".data

/-- Model of `/SHBG/i` — case-insensitive substring. -/
def nameHasSHBG (s : Chars) : Bool :=
  charsContains (s.map lowerChar) "shbg".data

/-- Model of `/^\(\d+\s*-\s*\d+\s*mg\/dL\)$/` with the captures of
`/\((\d+)\s*-\s*(\d+)\s*mg\/dL\)/` (the capture regex always succeeds
on a line the anchored test accepts, with the same groups). -/
def iggRefLine (s : Chars) : Option (ℚ × ℚ) :=
  match s with
  | '(' :: r =>
    (match takeDigits1 r with
    | none => none
    | some (d1, r1) =>
      match skipWsStar r1 with
      | '-' :: r3 =>
        (match takeDigits1 (skipWsStar r3) with
        | none => none
        | some (d2, r5) =>
          match expectLit ("mg/dL") (skipWsStar r5) with
          | none => none
          | some r7 =>
            match r7 with
            | [')'] => some ((natOfDigits d1 : ℚ), (natOfDigits d2 : ℚ))
            | _ => none)
      | _ => none)
  | _ => none

/-- Model of `(\d+(?:\.\d+)?)\s*-\s*(\d+(?:\.\d+)?)` at this position. -/
def numDashNumAt (s : Chars) : Option (ℚ × ℚ × Chars) :=
  match takeNumber s with
  | none => none
  | some (q1, r1) =>
    match skipWsStar r1 with
    | '-' :: r3 =>
      (match takeNumber (skipWsStar r3) with
      | none => none
      | some (q2, r5) => some (q1, q2, r5))
    | _ => none

/-- Leftmost occurrence of `num - num`. -/
def findNumDashNum : Chars → Option (ℚ × ℚ × Chars)
  | [] => none
  | c :: cs =>
    match numDashNumAt (c :: cs) with
    | some res => some res
    | none => findNumDashNum cs

/-- Model of `/(\d+(?:\.\d+)?)\s*-\s*(\d+(?:\.\d+)?)\s*nmol\/L/` at this
position. -/
def nmolRefAt (s : Chars) : Option (ℚ × ℚ) :=
  match numDashNumAt s with
  | none => none
  | some (q1, q2, r5) =>
    match expectLit ("nmol/L") (skipWsStar r5) with
    | none => none
    | some _ => some (q1, q2)

/-- Leftmost match of the `nmol/L` range pattern. -/
def findNmolRef : Chars → Option (ℚ × ℚ)
  | [] => none
  | c :: cs =>
    match nmolRefAt (c :: cs) with
    | some res => some res
    | none => findNmolRef cs

/-- Model of `Free\s+Testosterone\s+Index` at this position (on lower-cased
text, for the `i` flag). -/
def ftiMatchAt (s : Chars) : Option Chars :=
  match expectLit ("free") s with
  | none => none
  | some r1 =>
    match skipWs1 r1 with
    | none => none
    | some r2 =>
      match expectLit ("testosterone") r2 with
      | none => none
      | some r3 =>
        match skipWs1 r3 with
        | none => none
        | some r4 => expectLit ("index") r4

/-- Unanchored scan for the `Free Testosterone Index` name pattern on
lower-cased text. -/
def ftiSearch : Chars → Bool
  | [] => (ftiMatchAt []).isSome
  | c :: cs => (ftiMatchAt (c :: cs)).isSome || ftiSearch cs

/-- Model of `/Free\s+Testosterone\s+Index/i` — unanchored search. -/
def nameHasFTI (s : Chars) : Bool := ftiSearch (s.map lowerChar)

/-- Model of `/\(.*?(\d+(?:\.\d+)?)\s*-\s*(\d+(?:\.\d+)?)/` — leftmost `(` that
is followed (lazily) by a `num - num`; the captures are the first such
pair after that `(`. -/
def ftiRefSearch : Chars → Option (ℚ × ℚ)
  | [] => none
  | '(' :: cs =>
    (match findNumDashNum cs with
    | some (q1, q2, _) => some (q1, q2)
    | none => ftiRefSearch cs)
  | _ :: cs => ftiRefSearch cs

/-- A parsed test row with its sequentially assigned id
(`(results.length + 1).toString()`). -/
def mkParsedRow (n : Nat) (name : String) (v : ℚ) (unit : String)
    (mn mx : ℚ) : TestResult :=
  { id := natToDecString n, testName := name, value := v, unit := unit,
    referenceRange := { min := mn, max := mx },
    status := determineTestStatus v mn mx }

/-- One iteration of the 3-line sliding window: the four pattern
blocks of `parseTestResults`, applied in source order, each pushing a
row when its name test, range test and value all match. -/
def applyWindowPatterns (acc : List TestResult) (w : Chars × Chars × Chars) :
    List TestResult :=
  let (nameL, refL, valL) := w
  let acc :=
    if nameIsIgG nameL then
      match iggRefLine refL, valueLineNum valL with
      | some (mn, mx), some v =>
        acc ++ [mkParsedRow (acc.length + 1) "IgG" v ("mg/dL") mn mx]
      | _, _ => acc
    else acc
  let acc :=
    if nameHasFTI nameL && (match refL with | '(' :: _ => true | _ => false) then
      match ftiRefSearch refL, valueLineNum valL with
      | some (mn, mx), some v =>
        acc ++ [mkParsedRow (acc.length + 1) "Free Testosterone Index" v ("%") mn mx]
      | _, _ => acc
    else acc
  let acc :=
    if nameHasSHBG nameL && charsContains refL ("nmol/L").data then
      match findNmolRef refL, valueLineNum valL with
      | some (mn, mx), some v =>
        acc ++ [mkParsedRow (acc.length + 1) "SHBG" v ("nmol/L") mn mx]
      | _, _ => acc
    else acc
  if nameIsTestosterone nameL && charsContains refL ("nmol/L").data then
    match findNmolRef refL, valueLineNum valL with
    | some (mn, mx), some v =>
      acc ++ [mkParsedRow (acc.length + 1) "Testosterone" v ("nmol/L") mn mx]
    | _, _ => acc
  else acc

/-- The 3-line sliding window
(`for (i = 0; i < lines.length - 2; i++)`). -/
def windows3 : List α → List (α × α × α)
  | a :: b :: c :: rest => (a, b, c) :: windows3 (b :: c :: rest)
  | _ => []

/-- The suffix of `s` starting at the first occurrence of `pat`
(`text.substring(text.indexOf(pat))`, `none` when `indexOf` is -1). -/
def dropUntilSub (pat : Chars) : Chars → Option Chars
  | [] => if charsStartsWith [] pat then some [] else none
  | c :: cs =>
    if charsStartsWith (c :: cs) pat then some (c :: cs)
    else dropUntilSub pat cs

/-- Model of `\((\d+)\s*-\s*(\d+)\s*mg\/dL\)` at this position, returning the
captures and the rest after `)`. -/
def parenRangeAt (s : Chars) : Option (ℚ × ℚ × Chars) :=
  match s with
  | '(' :: r =>
    (match takeDigits1 r with
    | none => none
    | some (d1, r1) =>
      match skipWsStar r1 with
      | '-' :: r3 =>
        (match takeDigits1 (skipWsStar r3) with
        | none => none
        | some (d2, r5) =>
          match expectLit ("mg/dL") (skipWsStar r5) with
          | none => none
          | some r7 =>
            match r7 with
            | ')' :: r8 => some ((natOfDigits d1 : ℚ), (natOfDigits d2 : ℚ), r8)
            | _ => none)
      | _ => none)
  | _ => none

/-- Leftmost match of the parenthesized `mg/dL` range. -/
def findParenRange : Chars → Option (ℚ × ℚ × Chars)
  | [] => none
  | c :: cs =>
    match parenRangeAt (c :: cs) with
    | some res => some res
    | none => findParenRange cs

/-- First digit run (`[\s\S]*?(\d+)`). -/
def findDigits : Chars → Option Chars
  | [] => none
  | c :: cs =>
    if isDigitCh c then some ((c :: cs).takeWhile isDigitCh)
    else findDigits cs

/-- Model of `/IgG[\s\S]*?\((\d+)\s*-\s*(\d+)\s*mg\/dL\)[\s\S]*?(\d+)/` on the
`REFERENCE VALUES` section (case-sensitive `IgG`). -/
def iggSectionMatch (s : Chars) : Option (ℚ × ℚ × ℚ) :=
  match dropUntilSub ("IgG").data s with
  | none => none
  | some s1 =>
    match findParenRange (s1.drop 3) with
    | none => none
    | some (mn, mx, rest) =>
      match findDigits rest with
      | none => none
      | some ds => some (mn, mx, (natOfDigits ds : ℚ))

/-- Model of `parseTestResults(text)` (lines 28-168): the sliding-window scan
over the four registered patterns, then the `REFERENCE VALUES`
fallback used only when the primary scan produced nothing. -/
def parseTestResults (text : String) : List TestResult :=
  let textC := text.data
  let lines := linesOf textC
  let results := (windows3 lines).foldl applyWindowPatterns []
  match dropUntilSub ("REFERENCE VALUES").data textC with
  | none => results
  | some sec =>
    if results.length == 0 then
      match iggSectionMatch sec with
      | some (mn, mx, v) =>
        results ++
          [{ id := "1", testName := "IgG", value := v, unit := "mg/dL",
             referenceRange := { min := mn, max := mx },
             status := determineTestStatus v mn mx }]
      | none => results
    else results

/-! ## Theorems -/

/-- C3. The classifier applies, in this exact order: below the
range it is `critical` under half the minimum else `low`; above the
range it is `critical` above one-and-a-half times the maximum else
`high`; inside the range it is `normal`.  The critical boundaries are
strict, so `classify(269, 540, 1822) = critical` while
`classify(270, 540, 1822) = low`, and for every triple with
`min < max` exactly one label is returned. -/
theorem determineTestStatus_spec (value mn mx : ℚ) (h : mn < mx) :
    (value < mn →
      determineTestStatus value mn mx =
        (if value < mn * (1/2) then TestStatus.critical else TestStatus.low)) ∧
    (¬ value < mn → mx < value →
      determineTestStatus value mn mx =
        (if mx * (3/2) < value then TestStatus.critical else TestStatus.high)) ∧
    (mn ≤ value → value ≤ mx →
      determineTestStatus value mn mx = TestStatus.normal) ∧
    determineTestStatus 269 540 1822 = TestStatus.critical ∧
    determineTestStatus 270 540 1822 = TestStatus.low ∧
    ∃! s : TestStatus, determineTestStatus value mn mx = s := by
  refine ⟨fun hlt => ?_, fun hge hgt => ?_, fun h1 h2 => ?_, ?_, ?_,
    ⟨determineTestStatus value mn mx, rfl, fun s hs => hs.symm⟩⟩
  · rw [determineTestStatus, if_pos hlt]
  · rw [determineTestStatus, if_neg hge, if_pos (show mx < value from hgt)]
  · rw [determineTestStatus, if_neg (not_lt.mpr h1), if_neg (not_lt.mpr h2)]
  · norm_num [determineTestStatus]
  · norm_num [determineTestStatus]

/-- Witness for `determineTestStatus_spec` at `(1000, 540, 1822)`. -/
theorem determineTestStatus_spec_witness :
    (540 : ℚ) < 1822 ∧ determineTestStatus 1000 540 1822 = TestStatus.normal :=
  ⟨by norm_num, ((determineTestStatus_spec 1000 540 1822 (by norm_num)).2.2.1
      (by norm_num) (by norm_num))⟩

/-- C9 counterexample. The two embedded classifiers disagree at
`(180, 50, 100)`: the extractor function `determineTestStatus` uses the
`max * 1.5` upper critical threshold and returns `critical`, while the
processor function `determineStatus` uses `max * 2` and returns `high`. -/
theorem determineStatus_ne_determineTestStatus :
    determineTestStatus 180 50 100 = TestStatus.critical ∧
    determineStatus 180 50 100 = TestStatus.high ∧
    determineTestStatus 180 50 100 ≠ determineStatus 180 50 100 := by
  have hA : determineTestStatus 180 50 100 = TestStatus.critical := by
    norm_num [determineTestStatus]
  have hB : determineStatus 180 50 100 = TestStatus.high := by
    norm_num [determineStatus]
  exact ⟨hA, hB, by rw [hA, hB]; exact fun h => TestStatus.noConfusion h⟩

/-- The five classification regions for a positive range, used to
compare the two embedded classifiers. -/
theorem classifier_regions (value mn mx : ℚ) (h0 : 0 < mn) (h1 : mn ≤ mx) :
    (value < mn * (1/2) →
      determineTestStatus value mn mx = TestStatus.critical ∧
      determineStatus value mn mx = TestStatus.critical) ∧
    (mn * (1/2) ≤ value → value < mn →
      determineTestStatus value mn mx = TestStatus.low ∧
      determineStatus value mn mx = TestStatus.low) ∧
    (mn ≤ value → value ≤ mx →
      determineTestStatus value mn mx = TestStatus.normal ∧
      determineStatus value mn mx = TestStatus.normal) ∧
    (mx < value → value ≤ mx * (3/2) →
      determineTestStatus value mn mx = TestStatus.high ∧
      determineStatus value mn mx = TestStatus.high) ∧
    (mx * (3/2) < value → value ≤ mx * 2 →
      determineTestStatus value mn mx = TestStatus.critical ∧
      determineStatus value mn mx = TestStatus.high) ∧
    (mx * 2 < value →
      determineTestStatus value mn mx = TestStatus.critical ∧
      determineStatus value mn mx = TestStatus.critical) := by
  have hmx : 0 < mx := lt_of_lt_of_le h0 h1
  refine ⟨fun hA => ?_, fun hB1 hB2 => ?_, fun hC1 hC2 => ?_,
    fun hD1 hD2 => ?_, fun hE1 hE2 => ?_, fun hF => ?_⟩
  · constructor
    · rw [determineTestStatus, if_pos (by linarith), if_pos hA]
    · rw [determineStatus, if_pos (Or.inl hA)]
  · constructor
    · rw [determineTestStatus, if_pos hB2, if_neg (not_lt.mpr hB1)]
    · rw [determineStatus, if_neg ?_, if_pos hB2]
      push_neg
      exact ⟨hB1, by linarith⟩
  · constructor
    · rw [determineTestStatus, if_neg (not_lt.mpr hC1), if_neg (not_lt.mpr hC2)]
    · rw [determineStatus, if_neg ?_, if_neg (not_lt.mpr hC1),
        if_neg (not_lt.mpr hC2)]
      push_neg
      exact ⟨by linarith, by linarith⟩
  · constructor
    · rw [determineTestStatus, if_neg (not_lt.mpr (by linarith)), if_pos hD1,
        if_neg (not_lt.mpr hD2)]
    · rw [determineStatus, if_neg ?_, if_neg (not_lt.mpr (by linarith)),
        if_pos hD1]
      push_neg
      exact ⟨by linarith, by linarith⟩
  · have hmxv : mx < value := by nlinarith
    constructor
    · rw [determineTestStatus, if_neg (not_lt.mpr (by linarith)), if_pos hmxv,
        if_pos hE1]
    · rw [determineStatus, if_neg ?_, if_neg (not_lt.mpr (by linarith)),
        if_pos hmxv]
      push_neg
      exact ⟨by linarith, hE2⟩
  · have hmxv : mx < value := by nlinarith
    constructor
    · rw [determineTestStatus, if_neg (not_lt.mpr (by linarith)), if_pos hmxv,
        if_pos (by nlinarith)]
    · rw [determineStatus, if_pos (Or.inr hF)]

/-- C9 amended. For positive ranges (`0 < min ≤ max`) the two
status functions return the same label exactly outside the band
`max * 1.5 < value ≤ max * 2`; inside that band `determineTestStatus`
returns `critical` while `determineStatus` returns `high`. -/
theorem determineStatus_eq_iff (value mn mx : ℚ) (h0 : 0 < mn) (h1 : mn ≤ mx) :
    (determineStatus value mn mx = determineTestStatus value mn mx ↔
      ¬ (mx * (3/2) < value ∧ value ≤ mx * 2)) ∧
    (mx * (3/2) < value → value ≤ mx * 2 →
      determineTestStatus value mn mx = TestStatus.critical ∧
      determineStatus value mn mx = TestStatus.high) := by
  obtain ⟨rA, rB, rC, rD, rE, rF⟩ := classifier_regions value mn mx h0 h1
  constructor
  · constructor
    · intro heq hband
      obtain ⟨hc, hh⟩ := rE hband.1 hband.2
      rw [hc, hh] at heq
      exact absurd heq (by simp)
    · intro hout
      rcases lt_or_ge value (mn * (1/2)) with hA | hA
      · rw [(rA hA).1, (rA hA).2]
      rcases lt_or_ge value mn with hB | hB
      · rw [(rB hA hB).1, (rB hA hB).2]
      rcases le_or_lt value mx with hC | hC
      · rw [(rC hB hC).1, (rC hB hC).2]
      rcases le_or_lt value (mx * (3/2)) with hD | hD
      · rw [(rD hC hD).1, (rD hC hD).2]
      rcases le_or_lt value (mx * 2) with hE | hF
      · exact absurd ⟨hD, hE⟩ hout
      · rw [(rF hF).1, (rF hF).2]
  · exact rE

/-- Witness for `determineStatus_eq_iff` at `(95, 50, 100)` where the
two classifiers agree on `normal`. -/
theorem determineStatus_eq_iff_witness :
    (0 : ℚ) < 50 ∧ (50 : ℚ) ≤ 100 ∧
      (determineStatus 95 50 100 = determineTestStatus 95 50 100 ↔
        ¬ ((100 : ℚ) * (3/2) < 95 ∧ (95 : ℚ) ≤ 100 * 2)) :=
  ⟨by norm_num, by norm_num,
    (determineStatus_eq_iff 95 50 100 (by norm_num) (by norm_num)).1⟩

/-- C1 counterexample. A write arriving after the job is
Completed is neither rejected nor ignored: `updateJobStatus` succeeds
and overwrites the terminal status with Running and the progress with
50, so terminal status is not sticky. -/
theorem updateJobStatus_not_sticky :
    jobDoneC1.status = JobStatus.completed ∧
    updateJobStatus ("j1") updateBackToRunningC1 7 [jobDoneC1] =
      .ok [jobOverwrittenC1] ∧
    jobOverwrittenC1.status = JobStatus.running := by
  refine ⟨rfl, ?_, rfl⟩
  rfl

/-- C1 amended. `updateJobStatus` rejects a write only when no
job row has the given id (NotFound).  For an existing job it applies
the requested field changes unconditionally — including to a job whose
status is already Completed or Failed — so a later write does change
status, progress, result reference and error detail of a terminal
job. -/
theorem updateJobStatus_overwrites_terminal (jobs : List AnalysisJob)
    (jid : String) (u : JobUpdate) (now : Nat) (j : AnalysisJob)
    (hmem : j ∈ jobs) (hid : j.id = jid)
    (hterm : j.status.isTerminal = true) :
    ∃ jobs', updateJobStatus jid u now jobs = .ok jobs' ∧
      applyJobUpdate u now j ∈ jobs' ∧
      (∀ s, u.status = some s → (applyJobUpdate u now j).status = s) := by
  have hany : jobs.any (fun j => j.id == jid) = true :=
    List.any_eq_true.mpr ⟨j, hmem, by simp [hid]⟩
  refine ⟨_, by rw [updateJobStatus, if_pos hany], ?_, ?_⟩
  · have := List.mem_map_of_mem
      (f := fun j => if j.id == jid then applyJobUpdate u now j else j) hmem
    unfold updMap
    simpa [hid] using this
  · intro s hs
    simp [applyJobUpdate, hs]

/-- Witness for `updateJobStatus_overwrites_terminal` on a concrete
store holding one completed job. -/
theorem updateJobStatus_overwrites_terminal_witness :
    jobDoneC1 ∈ [jobDoneC1] ∧ jobDoneC1.id = "j1" ∧
    jobDoneC1.status.isTerminal = true ∧
    ∃ jobs', updateJobStatus ("j1") updateBackToRunningC1 7 [jobDoneC1] = .ok jobs' ∧
      applyJobUpdate updateBackToRunningC1 7 jobDoneC1 ∈ jobs' ∧
      (∀ s, updateBackToRunningC1.status = some s →
        (applyJobUpdate updateBackToRunningC1 7 jobDoneC1).status = s) :=
  ⟨List.mem_singleton.mpr rfl, rfl, rfl,
    updateJobStatus_overwrites_terminal [jobDoneC1] "j1" updateBackToRunningC1 7
      jobDoneC1 (List.mem_singleton.mpr rfl) rfl rfl⟩

/-- C2 counterexample. With a Running (hence non-terminal) job
already stored for `(d1, u1)`, `startAnalysis` does not fail with
Conflict: the duplicate check only looks for status QUEUED, so a second
job for the same pair is created and enqueued. -/
theorem startAnalysis_running_no_conflict :
    jobRunningC2.status = JobStatus.running ∧
    jobRunningC2.uploadId = "d1" ∧ jobRunningC2.userId = "u1" ∧
    startAnalysis (some uploadC2) "d1" "u1" "j2" 5 [jobRunningC2] =
      .ok (jobCreatedC2, [jobRunningC2, jobCreatedC2], queueItemC2) := by
  refine ⟨rfl, rfl, rfl, ?_⟩
  rfl

/-- C2 amended. Creation of a job for `(documentRef, userRef)`
fails with Conflict exactly when a Queued job for that pair already
exists; a Running job does not block creation, and creation after every
prior job for the pair is Completed or Failed succeeds.  When the
upload does not resolve the result is NotFound. -/
theorem startAnalysis_conflict_iff (upload : Upload)
    (uploadId userId newId : String) (now : Nat) (jobs : List AnalysisJob) :
    (startAnalysis (some upload) uploadId userId newId now jobs =
        .error .badRequest ↔
      ∃ j ∈ jobs, j.uploadId = uploadId ∧ j.userId = userId ∧
        j.status = JobStatus.queued) ∧
    ((¬ ∃ j ∈ jobs, j.uploadId = uploadId ∧ j.userId = userId ∧
        j.status = JobStatus.queued) →
      ∃ job rest item,
        startAnalysis (some upload) uploadId userId newId now jobs =
          .ok (job, rest, item) ∧ job.status = JobStatus.queued ∧
        job.progress = some 0) ∧
    startAnalysis none uploadId userId newId now jobs = .error .notFound := by
  have hiff : (jobs.any (fun j =>
      j.uploadId == uploadId && j.userId == userId &&
        j.status == JobStatus.queued) = true) ↔
      ∃ j ∈ jobs, j.uploadId = uploadId ∧ j.userId = userId ∧
        j.status = JobStatus.queued := by
    rw [List.any_eq_true]
    constructor
    · rintro ⟨j, hj, hcond⟩
      simp only [Bool.and_eq_true, beq_iff_eq] at hcond
      exact ⟨j, hj, hcond.1.1, hcond.1.2, hcond.2⟩
    · rintro ⟨j, hj, h1, h2, h3⟩
      refine ⟨j, hj, ?_⟩
      simp only [Bool.and_eq_true, beq_iff_eq]
      exact ⟨⟨h1, h2⟩, h3⟩
  refine ⟨?_, ?_, rfl⟩
  · constructor
    · intro hres
      by_contra hno
      simp only [startAnalysis, if_neg (fun hc => hno (hiff.mp hc))] at hres
      exact Except.noConfusion hres
    · intro hex
      simp only [startAnalysis, if_pos (hiff.mpr hex)]
  · intro hno
    refine ⟨{ id := newId, userId := userId, uploadId := uploadId,
              status := .queued, progress := some 0, resultId := none,
              errorMessage := none, createdAt := now, updatedAt := now },
      jobs ++ [{ id := newId, userId := userId, uploadId := uploadId,
                 status := .queued, progress := some 0, resultId := none,
                 errorMessage := none, createdAt := now, updatedAt := now }],
      { jobId := newId, userId := userId, uploadId := uploadId,
        filePath := upload.path, originalName := upload.originalName },
      ?_, rfl, rfl⟩
    simp only [startAnalysis, if_neg (fun hc => hno (hiff.mp hc))]

/-- Witness for `startAnalysis_conflict_iff` on a store holding one
completed job for the pair: creation succeeds. -/
theorem startAnalysis_conflict_iff_witness :
    (¬ ∃ j ∈ [jobDoneC1], j.uploadId = "d1" ∧ j.userId = "u1" ∧
        j.status = JobStatus.queued) ∧
    ∃ job rest item,
      startAnalysis (some uploadC2) "d1" "u1" "j2" 5 [jobDoneC1] =
        .ok (job, rest, item) ∧ job.status = JobStatus.queued ∧
      job.progress = some 0 := by
  have hno : ¬ ∃ j ∈ [jobDoneC1], j.uploadId = "d1" ∧ j.userId = "u1" ∧
      j.status = JobStatus.queued := by
    rintro ⟨j, hj, -, -, hq⟩
    rw [List.mem_singleton] at hj
    rw [hj] at hq
    exact JobStatus.noConfusion hq
  exact ⟨hno,
    (startAnalysis_conflict_iff uploadC2 ("d1") "u1" "j2" 5 [jobDoneC1]).2.1 hno⟩

/-- The status of every row is counted in exactly one of the four buckets. -/
theorem status_count_partition (results : List TestResult) :
    results.length =
      (results.filter fun t => t.status == TestStatus.normal).length +
      ((results.filter fun t => t.status == TestStatus.high).length +
       (results.filter fun t => t.status == TestStatus.low).length) +
      (results.filter fun t => t.status == TestStatus.critical).length := by
  induction results with
  | nil => rfl
  | cons r rest ih =>
    rcases hs : r.status <;> simp [List.filter_cons, hs] <;> omega

/-- C6. `calculateStatistics`: `totalTests` is the row count,
`normalCount`/`criticalCount` count the rows with those statuses,
`abnormalCount` is the high rows plus the low rows, the overall status
is `critical` when some row is critical, else `abnormal` when some row
is high or low, else `normal`, and the three buckets partition the
rows, so `totalTests = normalCount + abnormalCount + criticalCount`. -/
theorem calculateStatistics_spec (result : BloodworkResult) :
    (calculateStatistics result).totalTests = result.results.length ∧
    (calculateStatistics result).normalCount =
      (result.results.filter fun t => t.status == TestStatus.normal).length ∧
    (calculateStatistics result).criticalCount =
      (result.results.filter fun t => t.status == TestStatus.critical).length ∧
    (calculateStatistics result).abnormalCount =
      (result.results.filter fun t => t.status == TestStatus.high).length +
      (result.results.filter fun t => t.status == TestStatus.low).length ∧
    ((calculateStatistics result).overallStatus = .critical ↔
      ∃ t ∈ result.results, t.status = TestStatus.critical) ∧
    ((calculateStatistics result).overallStatus = .abnormal ↔
      (¬ ∃ t ∈ result.results, t.status = TestStatus.critical) ∧
      ∃ t ∈ result.results,
        t.status = TestStatus.high ∨ t.status = TestStatus.low) ∧
    ((calculateStatistics result).overallStatus = .normal ↔
      (¬ ∃ t ∈ result.results, t.status = TestStatus.critical) ∧
      ¬ ∃ t ∈ result.results,
        t.status = TestStatus.high ∨ t.status = TestStatus.low) ∧
    (calculateStatistics result).totalTests =
      (calculateStatistics result).normalCount +
      (calculateStatistics result).abnormalCount +
      (calculateStatistics result).criticalCount := by
  have hfilt : ∀ s : TestStatus,
      (0 < (result.results.filter fun t => t.status == s).length) ↔
      ∃ t ∈ result.results, t.status = s := by
    intro s
    rw [List.length_pos_iff_exists_mem]
    constructor
    · rintro ⟨t, ht⟩
      obtain ⟨hmem, hstat⟩ := List.mem_filter.mp ht
      exact ⟨t, hmem, by simpa using hstat⟩
    · rintro ⟨t, hmem, hstat⟩
      exact ⟨t, List.mem_filter.mpr ⟨hmem, by simpa using hstat⟩⟩
  have habn : (0 <
      (result.results.filter fun t => t.status == TestStatus.high).length +
      (result.results.filter fun t => t.status == TestStatus.low).length) ↔
      ∃ t ∈ result.results,
        t.status = TestStatus.high ∨ t.status = TestStatus.low := by
    constructor
    · intro hpos
      have h : (0 < (result.results.filter fun t =>
            t.status == TestStatus.high).length) ∨
          (0 < (result.results.filter fun t =>
            t.status == TestStatus.low).length) := by omega
      rcases h with h | h
      · obtain ⟨t, hmem, hstat⟩ := (hfilt TestStatus.high).mp h
        exact ⟨t, hmem, Or.inl hstat⟩
      · obtain ⟨t, hmem, hstat⟩ := (hfilt TestStatus.low).mp h
        exact ⟨t, hmem, Or.inr hstat⟩
    · rintro ⟨t, hmem, hstat | hstat⟩
      · have := (hfilt TestStatus.high).mpr ⟨t, hmem, hstat⟩
        omega
      · have := (hfilt TestStatus.low).mpr ⟨t, hmem, hstat⟩
        omega
  have hover : (calculateStatistics result).overallStatus =
      (if 0 < (result.results.filter fun t =>
          t.status == TestStatus.critical).length then OverallStatus.critical
       else if 0 <
          (result.results.filter fun t => t.status == TestStatus.high).length +
          (result.results.filter fun t => t.status == TestStatus.low).length
          then OverallStatus.abnormal
       else OverallStatus.normal) := rfl
  refine ⟨rfl, rfl, rfl, rfl, ?_, ?_, ?_, status_count_partition result.results⟩
  · rw [hover]
    by_cases hC : 0 < (result.results.filter fun t =>
        t.status == TestStatus.critical).length
    · rw [if_pos hC]
      exact ⟨fun _ => (hfilt TestStatus.critical).mp hC, fun _ => rfl⟩
    · rw [if_neg hC]
      constructor
      · intro he
        split at he <;> exact OverallStatus.noConfusion he
      · intro hex
        exact absurd ((hfilt TestStatus.critical).mpr hex) hC
  · rw [hover]
    by_cases hC : 0 < (result.results.filter fun t =>
        t.status == TestStatus.critical).length
    · rw [if_pos hC]
      constructor
      · intro he
        exact OverallStatus.noConfusion he
      · rintro ⟨hnc, -⟩
        exact absurd ((hfilt TestStatus.critical).mp hC) hnc
    · rw [if_neg hC]
      by_cases hA : 0 <
          (result.results.filter fun t => t.status == TestStatus.high).length +
          (result.results.filter fun t => t.status == TestStatus.low).length
      · rw [if_pos hA]
        exact ⟨fun _ => ⟨fun hex => hC ((hfilt TestStatus.critical).mpr hex),
          habn.mp hA⟩, fun _ => rfl⟩
      · rw [if_neg hA]
        constructor
        · intro he
          exact OverallStatus.noConfusion he
        · rintro ⟨-, hex⟩
          exact absurd (habn.mpr hex) hA
  · rw [hover]
    by_cases hC : 0 < (result.results.filter fun t =>
        t.status == TestStatus.critical).length
    · rw [if_pos hC]
      constructor
      · intro he
        exact OverallStatus.noConfusion he
      · rintro ⟨hnc, -⟩
        exact absurd ((hfilt TestStatus.critical).mp hC) hnc
    · rw [if_neg hC]
      by_cases hA : 0 <
          (result.results.filter fun t => t.status == TestStatus.high).length +
          (result.results.filter fun t => t.status == TestStatus.low).length
      · rw [if_pos hA]
        constructor
        · intro he
          exact OverallStatus.noConfusion he
        · rintro ⟨-, hex⟩
          exact absurd (habn.mp hA) hex
      · rw [if_neg hA]
        exact ⟨fun _ => ⟨fun hex => hC ((hfilt TestStatus.critical).mpr hex),
          fun hex => hA (habn.mpr hex)⟩, fun _ => rfl⟩

/-- C10. Fetching a stored result with an empty row list succeeds:
the statistics are all zero with overall status `normal`, and
`determineSeverity` returns `low` because the abnormal percentage is
`0 / 0 = NaN` and both `NaN > 50` and `NaN > 25` are false, falling
through to the lowest severity instead of erroring. -/
theorem findByIdWithEnhancements_empty (id userId : String)
    (store : List BloodworkResult) (b : BloodworkResult)
    (hfind : store.find? (fun r => r.id == id && r.userId == userId) = some b)
    (hempty : b.results = []) :
    (∃ enh, findByIdWithEnhancements id userId store = .ok enh ∧
      enh.statistics.totalTests = 0 ∧ enh.statistics.normalCount = 0 ∧
      enh.statistics.abnormalCount = 0 ∧ enh.statistics.criticalCount = 0 ∧
      enh.statistics.overallStatus = OverallStatus.normal ∧
      enh.aiInsights.severity = Severity.low) ∧
    determineSeverity [] = Severity.low ∧
    jsMul (jsDiv 0 0) 100 = none ∧
    jsGt (jsMul (jsDiv 0 0) 100) 50 = false ∧
    jsGt (jsMul (jsDiv 0 0) 100) 25 = false := by
  have hsev : determineSeverity [] = Severity.low := by
    simp [determineSeverity, jsGt, jsMul, jsDiv]
  have hnan : jsMul (jsDiv 0 0) 100 = none := by simp [jsMul, jsDiv]
  refine ⟨?_, hsev, hnan, by rw [hnan]; rfl, by rw [hnan]; rfl⟩
  unfold findByIdWithEnhancements
  rw [hfind]
  refine ⟨_, rfl, ?_, ?_, ?_, ?_, ?_, ?_⟩
  · simp [calculateStatistics, hempty]
  · simp [calculateStatistics, hempty]
  · simp [calculateStatistics, hempty]
  · simp [calculateStatistics, hempty]
  · simp [calculateStatistics, hempty]
  · show (generateRecommendations b.results).severity = Severity.low
    show determineSeverity b.results = Severity.low
    rw [hempty, hsev]

/-- Witness for `findByIdWithEnhancements_empty` on a store holding one
result row with an empty `results` list. -/
theorem findByIdWithEnhancements_empty_witness :
    ([emptyStoredResult].find?
        (fun r => r.id == "r1" && r.userId == "u1") = some emptyStoredResult) ∧
    emptyStoredResult.results = [] ∧
    ∃ enh, findByIdWithEnhancements ("r1") "u1" [emptyStoredResult] = .ok enh ∧
      enh.statistics.totalTests = 0 ∧ enh.statistics.normalCount = 0 ∧
      enh.statistics.abnormalCount = 0 ∧ enh.statistics.criticalCount = 0 ∧
      enh.statistics.overallStatus = OverallStatus.normal ∧
      enh.aiInsights.severity = Severity.low :=
  ⟨rfl, rfl,
    (findByIdWithEnhancements_empty ("r1") "u1" [emptyStoredResult]
      emptyStoredResult rfl rfl).1⟩

/-- The `Map` lookup only ever returns an element of the output list. -/
theorem lookupLast_aux (i : String) (l : List InsightOut) :
    ∀ (acc : Option InsightOut) (o : InsightOut),
      l.foldl (fun acc o => if o.id == i then some o else acc) acc = some o →
      o ∈ l ∨ acc = some o := by
  induction l with
  | nil => exact fun acc o h => Or.inr h
  | cons x xs ih =>
    intro acc o h
    rcases ih _ o h with hmem | hacc
    · exact Or.inl (List.mem_cons_of_mem _ hmem)
    · dsimp only at hacc
      by_cases hx : (x.id == i) = true
      · rw [if_pos hx] at hacc
        exact Or.inl (by rw [← Option.some_inj.mp hacc]; exact List.mem_cons_self x xs)
      · rw [if_neg hx] at hacc
        exact Or.inr hacc

/-- If `byId.get` finds an insight, it is one of the batch outputs. -/
theorem lookupLastById_mem {outputs : List InsightOut} {i : String}
    {o : InsightOut} (h : lookupLastById outputs i = some o) : o ∈ outputs := by
  rcases lookupLast_aux i outputs none o h with hm | hacc
  · exact hm
  · exact absurd hacc (by simp)

/-- Every collected output carries the service model provenance tag. -/
theorem outputsOf_sourceModel {model : String}
    {attempt : Nat → Nat → Option (List InsightRaw)} {row : BloodworkResult}
    {o : InsightOut} (h : o ∈ outputsOf model attempt row) :
    o.sourceModel = "openai:" ++ model := by
  unfold outputsOf at h
  obtain ⟨i, -, hmem⟩ := List.mem_flatMap.mp h
  rcases h0 : attempt i 0 with _ | raw0
  · rcases h1 : attempt i 1 with _ | raw1
    · simp [callWithRetry, callOnceModel, h0, h1] at hmem
    · simp [callWithRetry, callOnceModel, h0, h1] at hmem
      obtain ⟨v, -, hv⟩ := hmem
      rw [← hv]
  · simp [callWithRetry, callOnceModel, h0] at hmem
    obtain ⟨v, -, hv⟩ := hmem
    rw [← hv]

/-- When every service call fails, no batch contributes an output. -/
theorem outputsOf_all_fail {model : String}
    {attempt : Nat → Nat → Option (List InsightRaw)} {row : BloodworkResult}
    (h : ∀ i a, attempt i a = none) : outputsOf model attempt row = [] := by
  unfold outputsOf
  have hz : ∀ i : Nat,
      ((callWithRetry fun a => callOnceModel model (attempt i a)).1.getD []) =
        ([] : List InsightOut) := by
    intro i
    simp [callWithRetry, callOnceModel, h i 0, h i 1]
  simp [hz]

/-- C4. For a job whose stored row list is non-empty, the
enrichment step persists an updated list of the same length in which
every row carries exactly one note (`aiNote` is set) with a non-empty
provenance tag (`aiModel` is the service model identifier or the
fallback marker); and when every service call fails, every row gets
the deterministic `getDefaultNote` fallback with confidence 0.2 and
source `fallback:rules`. -/
theorem generateAndPersist_notes_complete (model : String)
    (attempt : Nat → Nat → Option (List InsightRaw)) (now analysisId : String)
    (st : ServerState) (row : BloodworkResult)
    (hfind : st.bloodworkResults.find? (fun b => b.jobId == analysisId) = some row)
    (hne : row.results ≠ []) :
    ∃ updated,
      (generateAndPersistForAnalysis model attempt now analysisId st).bloodworkResults =
        st.bloodworkResults.map
          (fun b => if b.id == row.id then { b with results := updated } else b) ∧
      updated.length = row.results.length ∧
      (∀ r' ∈ updated, r'.aiNote.isSome = true ∧
        ∃ m, r'.aiModel = some m ∧ m ≠ "") ∧
      ((∀ i a, attempt i a = none) →
        updated = row.results.map (fallbackRow model now)) := by
  have hlenne : ¬ ((row.results.length == 0) = true) := by
    simp only [beq_iff_eq, List.length_eq_zero]
    exact hne
  refine ⟨mergeAiResults ("openai:" ++ model ++ ":p1") now
    (outputsOf model attempt row) row.results, ?_, ?_, ?_, ?_⟩
  · simp only [generateAndPersistForAnalysis, hfind]
    rw [if_neg hlenne]
  · simp [mergeAiResults]
  · intro r' hmem
    unfold mergeAiResults at hmem
    obtain ⟨r, hr, rfl⟩ := List.mem_map.mp hmem
    rcases hl : lookupLastById (outputsOf model attempt row) r.id with _ | o
    · refine ⟨rfl, "fallback:rules", rfl, by decide⟩
    · refine ⟨rfl, o.sourceModel, rfl, ?_⟩
      rw [outputsOf_sourceModel (lookupLastById_mem hl)]
      intro hc
      have hlen := congrArg String.length hc
      rw [String.length_append] at hlen
      have h7 : "openai:".length = 7 := rfl
      have h0 : "".length = 0 := rfl
      omega
  · intro hfail
    rw [outputsOf_all_fail hfail]
    rfl

/-- Witness for `generateAndPersist_notes_complete`: one stored row,
every service call failing. -/
theorem generateAndPersist_notes_complete_witness :
    ([storedRowC4].find? (fun b => b.jobId == "job2") = some storedRowC4) ∧
    storedRowC4.results ≠ [] ∧
    ∃ updated,
      (generateAndPersistForAnalysis ("gpt-4o-mini") (fun _ _ => none) "t0" "job2"
        { jobs := [], bloodworkResults := [storedRowC4] }).bloodworkResults =
        [storedRowC4].map
          (fun b => if b.id == storedRowC4.id then { b with results := updated }
                    else b) ∧
      updated.length = storedRowC4.results.length ∧
      (∀ r' ∈ updated, r'.aiNote.isSome = true ∧
        ∃ m, r'.aiModel = some m ∧ m ≠ "") ∧
      ((∀ i a : Nat, (fun (_ _ : Nat) =>
          (none : Option (List InsightRaw))) i a = none) →
        updated = storedRowC4.results.map (fallbackRow ("gpt-4o-mini") "t0")) :=
  ⟨rfl, by simp [storedRowC4],
    generateAndPersist_notes_complete ("gpt-4o-mini") (fun _ _ => none) "t0" "job2"
      { jobs := [], bloodworkResults := [storedRowC4] } storedRowC4 rfl
      (by simp [storedRowC4])⟩

/-- Concatenating the batches gives back the original list. -/
theorem chunkAux_flatten (n : Nat) :
    ∀ (fuel : Nat) (l : List α), (chunkAux n fuel l).flatten = l := by
  intro fuel
  induction fuel with
  | zero => intro l; cases l <;> simp [chunkAux]
  | succ f ih =>
    intro l
    cases l with
    | nil => simp [chunkAux]
    | cons x xs => simp [chunkAux, ih]

/-- Each batch holds at most `n` rows. -/
theorem chunkAux_le (n : Nat) (hn : 0 < n) :
    ∀ (fuel : Nat) (l : List α), l.length ≤ fuel →
      ∀ b ∈ chunkAux n fuel l, b.length ≤ n := by
  intro fuel
  induction fuel with
  | zero =>
    intro l hl b hb
    cases l with
    | nil => simp [chunkAux] at hb
    | cons x xs => simp at hl
  | succ f ih =>
    intro l hl b hb
    cases l with
    | nil => simp [chunkAux] at hb
    | cons x xs =>
      rcases List.mem_cons.mp hb with hb | hb
      · rw [hb]
        simp [List.length_take]
      · refine ih _ ?_ b hb
        simp only [List.length_drop, List.length_cons]
        simp only [List.length_cons] at hl
        omega

/-- The number of batches is the ceiling of `length / 20`. -/
theorem chunkAux_count :
    ∀ (fuel : Nat) (l : List α), l.length ≤ fuel →
      (chunkAux 20 fuel l).length = (l.length + 19) / 20 := by
  intro fuel
  induction fuel with
  | zero =>
    intro l hl
    cases l with
    | nil => simp [chunkAux]
    | cons x xs => simp at hl
  | succ f ih =>
    intro l hl
    cases l with
    | nil => simp [chunkAux]
    | cons x xs =>
      have hdrop : ((x :: xs).drop 20).length ≤ f := by
        simp only [List.length_drop, List.length_cons]
        simp only [List.length_cons] at hl
        omega
      have hrec := ih _ hdrop
      simp only [chunkAux, List.length_cons, hrec, List.length_drop]
      simp only [List.length_cons] at hl
      omega

/-- C5. The batch/retry policy of the enrichment client: the
randomized wait is bounded in `[300, 1200]` ms; each batch makes at
most two service calls (one retry exactly, none when the first call
succeeds); a batch whose two calls both fail contributes zero notes;
rows are partitioned into batches of at most 20 by ceiling division
(batches concatenate back to the input); and the enrichment service
never touches the job table, so a batch failure never changes any
status of any job. -/
theorem enrichment_retry_spec :
    (∀ r : ℚ, 0 ≤ r → r < 1 →
      300 ≤ retryDelayMs r ∧ retryDelayMs r ≤ 1200) ∧
    (∀ attempt : Nat → Option (List InsightOut),
      (callWithRetry attempt).2 ≤ 2 ∧
      (∀ out, attempt 0 = some out → callWithRetry attempt = (some out, 1)) ∧
      (attempt 0 = none → attempt 1 = none → callWithRetry attempt = (none, 2))) ∧
    (∀ l : List TestResultInput,
      (chunked 20 l).flatten = l ∧
      (∀ b ∈ chunked 20 l, b.length ≤ 20) ∧
      (chunked 20 l).length = (l.length + 19) / 20) ∧
    (∀ (model : String) (attempt : Nat → Nat → Option (List InsightRaw))
      (i : Nat), attempt i 0 = none → attempt i 1 = none →
      ((callWithRetry fun a => callOnceModel model (attempt i a)).1.getD []) =
        ([] : List InsightOut)) ∧
    (∀ model attempt now analysisId st,
      (generateAndPersistForAnalysis model attempt now analysisId st).jobs =
        st.jobs) := by
  refine ⟨?_, ?_, ?_, ?_, ?_⟩
  · intro r h0 h1
    have hge : (0 : ℤ) ≤ Int.floor (r * 900) := by
      apply Int.floor_nonneg.mpr
      positivity
    have hlt : Int.floor (r * 900) < 900 := by
      apply Int.floor_lt.mpr
      push_cast
      nlinarith
    unfold retryDelayMs
    omega
  · intro attempt
    refine ⟨?_, ?_, ?_⟩
    · rcases h0 : attempt 0 with _ | out
      · rcases h1 : attempt 1 with _ | out <;> simp [callWithRetry, h0, h1]
      · simp [callWithRetry, h0]
    · intro out h0
      simp [callWithRetry, h0]
    · intro h0 h1
      simp [callWithRetry, h0, h1]
  · intro l
    exact ⟨chunkAux_flatten 20 l.length l,
      chunkAux_le 20 (by norm_num) l.length l le_rfl,
      chunkAux_count l.length l le_rfl⟩
  · intro model attempt i h0 h1
    simp [callWithRetry, callOnceModel, h0, h1]
  · intro model attempt now analysisId st
    rcases h : st.bloodworkResults.find? (fun b => b.jobId == analysisId)
      with _ | row <;> simp only [generateAndPersistForAnalysis, h]
    split <;> rfl

/-- Witness for `enrichment_retry_spec`: the delay bound at the draw
`1/2`, the two-call bound for an always-failing oracle, and the batch
shape on a singleton input. -/
theorem enrichment_retry_spec_witness :
    ((0 : ℚ) ≤ 1/2 ∧ (1/2 : ℚ) < 1 ∧
      300 ≤ retryDelayMs (1/2) ∧ retryDelayMs (1/2) ≤ 1200) ∧
    (callWithRetry (fun _ => (none : Option (List InsightOut)))).2 ≤ 2 ∧
    callWithRetry (fun _ => (none : Option (List InsightOut))) = (none, 2) ∧
    (chunked 20 [toInput iggRow]).flatten = [toInput iggRow] ∧
    (generateAndPersistForAnalysis ("gpt-4o-mini") (fun _ _ => none) "t0" "job2"
      { jobs := [jobDoneC1], bloodworkResults := [storedRowC4] }).jobs =
      [jobDoneC1] := by
  have h1 := enrichment_retry_spec.1 (1/2) (by norm_num) (by norm_num)
  refine ⟨⟨by norm_num, by norm_num, h1.1, h1.2⟩, ?_, ?_, ?_, ?_⟩
  · exact (enrichment_retry_spec.2.1 (fun _ => none)).1
  · exact (enrichment_retry_spec.2.1 (fun _ => none)).2.2 rfl rfl
  · exact (enrichment_retry_spec.2.2.1 [toInput iggRow]).1
  · exact enrichment_retry_spec.2.2.2.2 ("gpt-4o-mini") (fun _ _ => none) "t0"
      "job2" { jobs := [jobDoneC1], bloodworkResults := [storedRowC4] }

/-- Overwriting matching rows does not change which ids occur. -/
theorem anyId_updMap (jobId : String) (u : JobUpdate) (now : Nat)
    (jobs : List AnalysisJob) :
    ((updMap jobId u now jobs).any fun j => j.id == jobId) =
      (jobs.any fun j => j.id == jobId) := by
  induction jobs with
  | nil => rfl
  | cons j rest ih =>
    simp only [updMap, List.map_cons, List.any_cons] at ih ⊢
    rw [ih]
    by_cases hj : (j.id == jobId) = true
    · rw [if_pos hj]
      rfl
    · rw [if_neg hj]

/-- A row of the updated table that carries the target id comes from a
matching row with the update applied. -/
theorem mem_updMap_id {jobId : String} {u : JobUpdate} {now : Nat}
    {jobs : List AnalysisJob} {j' : AnalysisJob}
    (h : j' ∈ updMap jobId u now jobs) (hid : j'.id = jobId) :
    ∃ j ∈ jobs, j' = applyJobUpdate u now j := by
  unfold updMap at h
  obtain ⟨j, hj, heq⟩ := List.mem_map.mp h
  by_cases hjid : (j.id == jobId) = true
  · rw [if_pos hjid] at heq
    exact ⟨j, hj, heq.symm⟩
  · rw [if_neg hjid] at heq
    rw [heq] at hjid
    exact absurd (by simp [hid]) hjid

/-- C8. Zero extracted rows is not an error: when the parser
succeeds with an empty row list, the pipeline runs to completion — no
error is thrown, every job row with the processed id ends with status
Completed, progress 100 and the new result reference, and a Result
whose rows list is empty is persisted under that reference. -/
theorem handleBloodworkAnalysis_empty_rows (jd : BloodworkJobData)
    (testType testDate rid : String) (now : Nat) (st : ServerState)
    (hjob : (st.jobs.any fun j => j.id == jd.jobId) = true)
    (hjid : jd.jobId ≠ "") :
    (handleBloodworkAnalysis jd
        (.ok { testType := testType, testDate := testDate, testResults := [] })
        rid now st).2 = none ∧
    (∀ j ∈ (handleBloodworkAnalysis jd
        (.ok { testType := testType, testDate := testDate, testResults := [] })
        rid now st).1.jobs,
      j.id = jd.jobId →
        j.status = JobStatus.completed ∧ j.progress = some 100 ∧
        j.resultId = some rid) ∧
    ∃ b ∈ (handleBloodworkAnalysis jd
        (.ok { testType := testType, testDate := testDate, testResults := [] })
        rid now st).1.bloodworkResults,
      b.id = rid ∧ b.jobId = jd.jobId ∧ b.results = [] := by
  have hjidb : (jd.jobId == "") = false := by
    simp only [beq_eq_false_iff_ne, ne_eq]
    exact hjid
  have hred : handleBloodworkAnalysis jd
      (.ok { testType := testType, testDate := testDate, testResults := [] })
      rid now st =
      ({ jobs := updMap jd.jobId (completedUpdate rid) now
           (updMap jd.jobId (runningUpdate 90) now
             (updMap jd.jobId (runningUpdate 70) now
               (updMap jd.jobId (runningUpdate 30) now
                 (updMap jd.jobId (runningUpdate 10) now st.jobs)))),
         bloodworkResults := st.bloodworkResults ++
           [{ id := rid, userId := jd.userId, jobId := jd.jobId,
              testType := testType, testDate := testDate, results := [],
              doctorNotes := some ("Analysis complete for " ++ testType ++
                ". Please discuss these results with your healthcare provider."),
              status := "completed", createdAt := now }] }, none) := by
    simp only [handleBloodworkAnalysis, updateJobStatus, createResult,
      anyId_updMap, hjob, if_true, hjidb, Bool.false_eq_true, if_false]
  refine ⟨by rw [hred], ?_, ?_⟩
  · intro j hj hid
    rw [hred] at hj
    obtain ⟨j0, -, rfl⟩ := mem_updMap_id hj hid
    exact ⟨rfl, rfl, rfl⟩
  · rw [hred]
    refine ⟨_, List.mem_append_right _ (List.mem_singleton.mpr rfl), rfl, rfl, rfl⟩

/-- Witness for `handleBloodworkAnalysis_empty_rows`: one queued job
and an empty parse, run through the pipeline. -/
theorem handleBloodworkAnalysis_empty_rows_witness :
    (([jobCreatedC2].any fun j => j.id == "j2") = true) ∧ ("j2" : String) ≠ "" ∧
    (handleBloodworkAnalysis
      { jobId := "j2", userId := "u1", uploadId := "d1",
        filePath := "/tmp/d1.pdf", originalName := "d1.pdf" }
      (.ok { testType := "Immunology Panel", testDate := "2024-01-01",
             testResults := [] })
      "r9" 8 { jobs := [jobCreatedC2], bloodworkResults := [] }).2 = none ∧
    ∃ b ∈ (handleBloodworkAnalysis
      { jobId := "j2", userId := "u1", uploadId := "d1",
        filePath := "/tmp/d1.pdf", originalName := "d1.pdf" }
      (.ok { testType := "Immunology Panel", testDate := "2024-01-01",
             testResults := [] })
      "r9" 8 { jobs := [jobCreatedC2], bloodworkResults := [] }).1.bloodworkResults,
      b.id = "r9" ∧ b.jobId = "j2" ∧ b.results = [] := by
  have h := handleBloodworkAnalysis_empty_rows
    { jobId := "j2", userId := "u1", uploadId := "d1",
      filePath := "/tmp/d1.pdf", originalName := "d1.pdf" }
    "Immunology Panel" "2024-01-01" "r9" 8
    { jobs := [jobCreatedC2], bloodworkResults := [] }
    (by rfl) (by decide)
  exact ⟨rfl, by decide, h.1, h.2.2⟩

/-- C7. On the fixture text `"IgG\n(540 - 1822 mg/dL)\n1493"` the
extractor returns exactly one row: id `"1"`, name `IgG`, value `1493`,
unit `mg/dL`, range `{540, 1822}`, status `normal`. -/
theorem parseTestResults_fixture :
    parseTestResults ("IgG\n(540 - 1822 mg/dL)\n1493") =
      [{ id := "1", testName := "IgG", value := 1493, unit := "mg/dL",
         referenceRange := { min := 540, max := 1822 },
         status := TestStatus.normal }] := by
  decide

end Bloodwork
